import Mathlib

/-!
Shallow embedding of the two navbar components of the rise-social repository:
`src/components/layout/Navbar.vue` (public navbar) and
`src/components/layout/DashboardNavbar.vue` (dashboard navbar).

The script sections of both components are pure derivations from the current
route path and the session object, plus small event handlers mutating three
booleans.  We embed the JavaScript string operations the code uses, the
session data model, the computed properties, the navigation lists, and a
step function for the event handlers registered by each component.
-/

/-! ## JavaScript string primitives used by the components -/

/-- Model of JavaScript `s.startsWith(pre)`: the character list of `pre` is a
prefix of the character list of `s`. -/
def jsStartsWith (s pre : String) : Bool :=
  pre.data.isPrefixOf s.data

/-- Drop trailing whitespace from a character list. -/
def trimRightChars (l : List Char) : List Char :=
  (l.reverse.dropWhile Char.isWhitespace).reverse

/-- Model of JavaScript `s.trim()`: whitespace removed from both ends. -/
def jsTrim (s : String) : String :=
  String.mk ((trimRightChars s.data).dropWhile Char.isWhitespace)

/-- Model of JavaScript `s.toUpperCase()` (ASCII letters, which covers the
first letters of names the code uppercases). -/
def jsToUpperCase (s : String) : String :=
  String.mk (s.data.map Char.toUpper)

/-- Model of the JavaScript expression `x?.[0] || ''` for a possibly absent
string `x`: the one-character string at index 0, or `""` when the field is
absent or the string is empty (both `undefined?.[0]` and `""[0]` are
`undefined`, and `undefined || ''` is `''`). -/
def jsCharAt0OrEmpty : Option String → String
  | none => ""
  | some s =>
    match s.data with
    | [] => ""
    | c :: _ => String.mk [c]

/-- Model of interpolating a possibly absent string field into a JavaScript
template literal: an absent field reads as `undefined`, which a template
literal stringifies as the text `"undefined"`. -/
def jsTemplateOpt : Option String → String
  | none => "undefined"
  | some s => s

/-! ## Session data model (external auth provider) -/

/-- Status enumeration of the session accessor. -/
inductive AuthStatus
  | loading
  | authenticated
  | unauthenticated
deriving DecidableEq

/-- User record inside the session; the navbar components read these four
fields, each possibly absent. -/
structure User where
  firstName : Option String
  lastName : Option String
  avatar : Option String
  email : Option String
deriving DecidableEq

/-- Session object as consumed by the components. -/
structure Session where
  user : Option User
deriving DecidableEq

/-- Model of `session.value?.user || null`. -/
def userOf (s : Option Session) : Option User :=
  s.bind Session.user

/-! ## Navigation items -/

/-- One entry of the computed navigation list: id, name, path, active flag. -/
structure NavItem where
  id : String
  name : String
  path : String
  isActive : Bool
deriving DecidableEq

/-- One entry of the dashboard navigation list, which also carries an icon. -/
structure DashNavItem where
  id : String
  name : String
  path : String
  icon : String
  isActive : Bool
deriving DecidableEq

/-! ## Effects and listener registrations -/

/-- Observable steps performed by the `handleLogout` handlers, in program
order: the external sign-out call, the write to the mobile-menu flag, and
the navigation call. -/
inductive LogoutStep
  | callSignOut
  | setMobileMenuOpen (v : Bool)
  | callNavigateTo (path : String)
deriving DecidableEq

/-- Kind of a global listener registration target. -/
inductive ListenerKind
  | documentClick
  | windowScroll
deriving DecidableEq

/-- A global listener registration: its target kind and the identity of the
callback function passed to `addEventListener`. -/
structure ListenerReg where
  kind : ListenerKind
  handlerId : String
deriving DecidableEq

/-- Listener registrations still present after adding `added` and then
removing `removals` (`removeEventListener` only removes a registration whose
kind and callback identity both match). -/
def remainingListeners (added removals : List ListenerReg) : List ListenerReg :=
  added.filter (fun r => !(removals.contains r))

/-! ## Public navbar (`Navbar.vue`) -/

namespace Navbar

/-- Computed `isAuthenticated`: the status accessor equals the string
`authenticated`. -/
def isAuthenticated (status : AuthStatus) : Bool :=
  decide (status = AuthStatus.authenticated)

/-- Computed `fullName`: empty when there is no user, otherwise the template
literal of first and last name separated by a space, trimmed. -/
def fullName (session : Option Session) : String :=
  match userOf session with
  | none => ""
  | some u => jsTrim (jsTemplateOpt u.firstName ++ " " ++ jsTemplateOpt u.lastName)

/-- Computed `initials`: `"U"` when there is no user, otherwise the
uppercased concatenation of the first letters of the two names, with `"U"`
as fallback when that concatenation is empty. -/
def initials (session : Option Session) : String :=
  match userOf session with
  | none => "U"
  | some u =>
    let first := jsCharAt0OrEmpty u.firstName
    let last := jsCharAt0OrEmpty u.lastName
    let joined := jsToUpperCase (first ++ last)
    if joined = "" then "U" else joined

/-- Computed `navigationMenus` of the public navbar as a function of
`route.path`. -/
def navigationMenus (path : String) : List NavItem :=
  [ { id := "home", name := "Home", path := "/", isActive := decide (path = "/") },
    { id := "courses", name := "Courses", path := "/courses",
      isActive := jsStartsWith path "/courses" },
    { id := "opportunities", name := "Jobs", path := "/opportunities",
      isActive := jsStartsWith path "/opportunities" },
    { id := "programs", name := "Programs", path := "/programs",
      isActive := jsStartsWith path "/programs" },
    { id := "about-us", name := "About Us", path := "/about-us",
      isActive := jsStartsWith path "/about-us" },
    { id := "contact", name := "Contact Us", path := "/contact",
      isActive := jsStartsWith path "/contact" } ]

/-- Reactive state owned by one public navbar instance, together with the
current route path it watches. -/
structure State where
  routePath : String
  mobileMenuOpen : Bool
  isScrolled : Bool
  showLoginDialog : Bool
deriving DecidableEq

/-- Events the public navbar reacts to: a route-path change (the `watch`
fires only when the path actually changes), a document click carrying
whether `e.target.closest` found an enclosing `header`, a scroll event
carrying `window.scrollY`, the mobile-menu toggle button, and opening the
login dialog. -/
inductive Event
  | routeChange (newPath : String)
  | documentClick (targetInHeader : Bool)
  | scroll (scrollY : Nat)
  | toggleMenu
  | openLoginDialog

/-- One event-handler step of the public navbar. -/
def step (s : State) : Event → State
  | Event.routeChange p =>
    if p = s.routePath then s
    else { s with routePath := p, mobileMenuOpen := false }
  | Event.documentClick inHeader =>
    if inHeader then s else { s with mobileMenuOpen := false }
  | Event.scroll y => { s with isScrolled := decide (0 < y) }
  | Event.toggleMenu => { s with mobileMenuOpen := !s.mobileMenuOpen }
  | Event.openLoginDialog => { s with showLoginDialog := true, mobileMenuOpen := false }

/-- Program-order trace of `handleLogout` in the public navbar:
`signOut(); mobileMenuOpen.value = false; await navigateTo('/')`. -/
def handleLogoutTrace : List LogoutStep :=
  [LogoutStep.callSignOut, LogoutStep.setMobileMenuOpen false, LogoutStep.callNavigateTo "/"]

/-- Global listeners registered in `onMounted` of the public navbar: an
anonymous document click handler and `handleScroll` on window scroll. -/
def mountedRegistrations : List ListenerReg :=
  [ { kind := ListenerKind.documentClick, handlerId := "anonymous" },
    { kind := ListenerKind.windowScroll, handlerId := "handleScroll" } ]

/-- Listener removals performed in `onUnmounted` of the public navbar: only
the window scroll listener is removed. -/
def unmountRemovals : List ListenerReg :=
  [ { kind := ListenerKind.windowScroll, handlerId := "handleScroll" } ]

end Navbar

/-! ## Dashboard navbar (`DashboardNavbar.vue`) -/

namespace DashboardNavbar

/-- Computed `fullName` of the dashboard navbar: the fallback for an absent
user is the string `"User"`, not the empty string. -/
def fullName (session : Option Session) : String :=
  match userOf session with
  | none => "User"
  | some u => jsTrim (jsTemplateOpt u.firstName ++ " " ++ jsTemplateOpt u.lastName)

/-- Computed `initials` of the dashboard navbar (same derivation as the
public navbar). -/
def initials (session : Option Session) : String :=
  match userOf session with
  | none => "U"
  | some u =>
    let first := jsCharAt0OrEmpty u.firstName
    let last := jsCharAt0OrEmpty u.lastName
    let joined := jsToUpperCase (first ++ last)
    if joined = "" then "U" else joined

/-- Computed `dashboardNavigation` as a function of `route.path`. -/
def dashboardNavigation (path : String) : List DashNavItem :=
  [ { id := "dashboard", name := "Dashboard", path := "/dashboard",
      icon := "lucide:layout-dashboard", isActive := decide (path = "/dashboard") },
    { id := "course", name := "Course", path := "/dashboard/course",
      icon := "lucide:book", isActive := jsStartsWith path "/dashboard/course" },
    { id := "jobs", name := "Jobs", path := "/dashboard/jobs",
      icon := "lucide:briefcase", isActive := jsStartsWith path "/dashboard/jobs" },
    { id := "programs", name := "Programs", path := "/dashboard/programs",
      icon := "lucide:school", isActive := jsStartsWith path "/dashboard/programs" } ]

/-- Reactive state owned by one dashboard navbar instance together with the
route path it watches. -/
structure State where
  routePath : String
  mobileMenuOpen : Bool
deriving DecidableEq

/-- Events the dashboard navbar reacts to. -/
inductive Event
  | routeChange (newPath : String)
  | documentClick (targetInHeader : Bool)

/-- One event-handler step of the dashboard navbar. -/
def step (s : State) : Event → State
  | Event.routeChange p =>
    if p = s.routePath then s
    else { s with routePath := p, mobileMenuOpen := false }
  | Event.documentClick inHeader =>
    if inHeader then s else { s with mobileMenuOpen := false }

/-- Program-order trace of `handleLogout` in the dashboard navbar:
`mobileMenuOpen.value = false; await signOut(); await navigateTo('/')`. -/
def handleLogoutTrace : List LogoutStep :=
  [LogoutStep.setMobileMenuOpen false, LogoutStep.callSignOut, LogoutStep.callNavigateTo "/"]

/-- Global listeners registered in `onMounted` of the dashboard navbar. -/
def mountedRegistrations : List ListenerReg :=
  [ { kind := ListenerKind.documentClick, handlerId := "handleClickOutside" } ]

/-- Listener removals performed in the nested `onUnmounted` of the dashboard
navbar. -/
def unmountRemovals : List ListenerReg :=
  [ { kind := ListenerKind.documentClick, handlerId := "handleClickOutside" } ]

end DashboardNavbar

/-! ## Concrete sample values -/

/-- Sample user whose last name field is absent. -/
def johnNoLast : User :=
  { firstName := some "John", lastName := none, avatar := none, email := none }

/-- Sample user whose last name is the empty string. -/
def johnEmptyLast : User :=
  { firstName := some "John", lastName := some "", avatar := none, email := none }

/-- Sample public navbar state at the root route with the menu open. -/
def navbarMenuOpenState : Navbar.State :=
  { routePath := "/", mobileMenuOpen := true, isScrolled := false, showLoginDialog := false }

/-- Sample public navbar state at the root route with everything off. -/
def navbarIdleState : Navbar.State :=
  { routePath := "/", mobileMenuOpen := false, isScrolled := false, showLoginDialog := false }

/-- Sample dashboard navbar state at its root route with the menu open. -/
def dashboardMenuOpenState : DashboardNavbar.State :=
  { routePath := "/dashboard", mobileMenuOpen := true }

/-- The courses entry of the public navigation list at a given path. -/
def coursesItem (path : String) : NavItem :=
  { id := "courses", name := "Courses", path := "/courses",
    isActive := jsStartsWith path "/courses" }

/-! ## Helper lemmas -/

/-- Two item paths, neither a character-list prefix of the other, cannot both
be prefixes of the same route path. -/
lemma both_prefixes_impossible {a b p : String}
    (hab : ¬ a.data <+: b.data) (hba : ¬ b.data <+: a.data)
    (h1 : jsStartsWith p a = true) (h2 : jsStartsWith p b = true) : False := by
  unfold jsStartsWith at h1 h2
  have ha := List.isPrefixOf_iff_prefix.mp h1
  have hb := List.isPrefixOf_iff_prefix.mp h2
  rcases List.prefix_or_prefix_of_prefix ha hb with h | h
  · exact hab h
  · exact hba h

/-- A route path equal to a root path cannot also start with a strictly
longer item path. -/
lemma root_match_excludes_longer {root b p : String}
    (hlen : root.data.length < b.data.length)
    (h1 : decide (p = root) = true) (h2 : jsStartsWith p b = true) : False := by
  have hp : p = root := of_decide_eq_true h1
  subst hp
  unfold jsStartsWith at h2
  have hb := List.isPrefixOf_iff_prefix.mp h2
  have := List.IsPrefix.length_le hb
  omega

/-- Appending a space does not change the result of `jsTrim`. -/
lemma jsTrim_append_space (s : String) : jsTrim (s ++ " ") = jsTrim s := by
  have h : trimRightChars ((s ++ " ").data) = trimRightChars s.data := by
    rw [String.data_append]
    unfold trimRightChars
    rw [List.reverse_append]
    rfl
  unfold jsTrim
  rw [h]

/-- The uppercased first letter of a nonempty string is a nonempty string. -/
lemma jsToUpperCase_head_ne_empty {fn : String} (hfn : ¬ fn = "") :
    ¬ jsToUpperCase (jsCharAt0OrEmpty (some fn)) = "" := by
  obtain ⟨data⟩ := fn
  cases data with
  | nil => exact absurd rfl hfn
  | cons c cs =>
    intro h
    simpa [jsToUpperCase, jsCharAt0OrEmpty] using congrArg String.data h

/-! ## Theorems -/

/-- C1: each item of either navigation list has its active flag computed from
the current path by the stated policy: exact equality for the home item of
each navbar, string-prefix test for every other item. -/
theorem nav_active_policy (path : String) :
    (∀ item ∈ Navbar.navigationMenus path,
      item.isActive = if item.id = "home" then decide (path = "/")
        else jsStartsWith path item.path)
    ∧ (∀ item ∈ DashboardNavbar.dashboardNavigation path,
      item.isActive = if item.id = "dashboard" then decide (path = "/dashboard")
        else jsStartsWith path item.path) := by
  constructor
  · intro item hmem
    simp only [Navbar.navigationMenus, List.mem_cons, List.not_mem_nil, or_false] at hmem
    rcases hmem with rfl | rfl | rfl | rfl | rfl | rfl <;> rfl
  · intro item hmem
    simp only [DashboardNavbar.dashboardNavigation, List.mem_cons, List.not_mem_nil,
      or_false] at hmem
    rcases hmem with rfl | rfl | rfl | rfl <;> rfl

/-- C1 witness: the courses item at route `/courses/123`. -/
theorem nav_active_policy_witness :
    (coursesItem "/courses/123").isActive
      = if (coursesItem "/courses/123").id = "home"
        then decide (("/courses/123" : String) = "/")
        else jsStartsWith "/courses/123" (coursesItem "/courses/123").path :=
  (nav_active_policy "/courses/123").1 (coursesItem "/courses/123") (by decide)

/-- C2 counterexample: with an absent session the dashboard navbar derives
`fullName = "User"`, not the empty string. -/
theorem dashboard_absent_fullname_counterexample :
    ¬ DashboardNavbar.fullName none = "" := by decide

/-- C2 (amended): with no user, the public navbar derives `fullName = ""`
and `initials = "U"`, and `isAuthenticated` is false whenever the status is
not `authenticated`; the dashboard navbar derives `initials = "U"` but
`fullName = "User"`, and it defines no `isAuthenticated` value at all. -/
theorem absent_session_display (session : Option Session) (status : AuthStatus)
    (hu : userOf session = none) (hs : ¬ status = AuthStatus.authenticated) :
    Navbar.isAuthenticated status = false
    ∧ Navbar.fullName session = ""
    ∧ Navbar.initials session = "U"
    ∧ DashboardNavbar.fullName session = "User"
    ∧ DashboardNavbar.initials session = "U" := by
  refine ⟨?_, ?_, ?_, ?_, ?_⟩
  · simp [Navbar.isAuthenticated, hs]
  · simp [Navbar.fullName, hu]
  · simp [Navbar.initials, hu]
  · simp [DashboardNavbar.fullName, hu]
  · simp [DashboardNavbar.initials, hu]

/-- C2 witness: the absent session with status `unauthenticated`. -/
theorem absent_session_display_witness :
    Navbar.isAuthenticated AuthStatus.unauthenticated = false
    ∧ Navbar.fullName none = ""
    ∧ Navbar.initials none = "U"
    ∧ DashboardNavbar.fullName none = "User"
    ∧ DashboardNavbar.initials none = "U" :=
  absent_session_display none AuthStatus.unauthenticated rfl (by decide)

/-- C3 counterexample: for a user with first name `"John"` and the last name
field absent, `fullName` is not the trimmed first name, because the template
literal stringifies the absent field as `"undefined"`. -/
theorem absent_lastname_fullname_counterexample :
    ¬ Navbar.fullName (some { user := some johnNoLast }) = jsTrim "John" := by
  decide

/-- C3 (amended): for a user with a nonempty first name and an empty-string
last name, both navbars derive initials = the uppercased first letter of the
first name and fullName = the trimmed first name; when the last name field
is absent entirely, the initials are the same but fullName is the first name
joined with the text `"undefined"`, trimmed. -/
theorem only_first_name_display (session : Option Session) (u : User) (fn : String)
    (hu : userOf session = some u) (hf : u.firstName = some fn) (hfn : ¬ fn = "")
    (hl : u.lastName = some "" ∨ u.lastName = none) :
    Navbar.initials session = jsToUpperCase (jsCharAt0OrEmpty (some fn))
    ∧ DashboardNavbar.initials session = jsToUpperCase (jsCharAt0OrEmpty (some fn))
    ∧ Navbar.fullName session
        = (if u.lastName = some "" then jsTrim fn else jsTrim (fn ++ " " ++ "undefined"))
    ∧ DashboardNavbar.fullName session
        = (if u.lastName = some "" then jsTrim fn else jsTrim (fn ++ " " ++ "undefined")) := by
  have hne := jsToUpperCase_head_ne_empty hfn
  rcases hl with hl | hl
  · refine ⟨?_, ?_, ?_, ?_⟩
    · simp only [Navbar.initials, hu, hf, hl]
      rw [show jsCharAt0OrEmpty (some "") = "" from rfl, String.append_empty, if_neg hne]
    · simp only [DashboardNavbar.initials, hu, hf, hl]
      rw [show jsCharAt0OrEmpty (some "") = "" from rfl, String.append_empty, if_neg hne]
    · rw [if_pos hl]
      simp only [Navbar.fullName, hu, hf, hl, jsTemplateOpt]
      rw [String.append_empty, jsTrim_append_space]
    · rw [if_pos hl]
      simp only [DashboardNavbar.fullName, hu, hf, hl, jsTemplateOpt]
      rw [String.append_empty, jsTrim_append_space]
  · refine ⟨?_, ?_, ?_, ?_⟩
    · simp only [Navbar.initials, hu, hf, hl]
      rw [show jsCharAt0OrEmpty none = "" from rfl, String.append_empty, if_neg hne]
    · simp only [DashboardNavbar.initials, hu, hf, hl]
      rw [show jsCharAt0OrEmpty none = "" from rfl, String.append_empty, if_neg hne]
    · rw [if_neg (by simp [hl])]
      simp only [Navbar.fullName, hu, hf, hl, jsTemplateOpt]
    · rw [if_neg (by simp [hl])]
      simp only [DashboardNavbar.fullName, hu, hf, hl, jsTemplateOpt]

/-- C3 witness: first name `"John"`, empty-string last name. -/
theorem only_first_name_display_witness :
    Navbar.initials (some { user := some johnEmptyLast })
        = jsToUpperCase (jsCharAt0OrEmpty (some "John"))
    ∧ DashboardNavbar.initials (some { user := some johnEmptyLast })
        = jsToUpperCase (jsCharAt0OrEmpty (some "John"))
    ∧ Navbar.fullName (some { user := some johnEmptyLast })
        = (if johnEmptyLast.lastName = some "" then jsTrim "John"
          else jsTrim ("John" ++ " " ++ "undefined"))
    ∧ DashboardNavbar.fullName (some { user := some johnEmptyLast })
        = (if johnEmptyLast.lastName = some "" then jsTrim "John"
          else jsTrim ("John" ++ " " ++ "undefined")) :=
  only_first_name_display (some { user := some johnEmptyLast }) johnEmptyLast "John"
    rfl rfl (by decide) (Or.inl rfl)

/-- C4: after a mount-then-unmount cycle, the public navbar leaves its
anonymous document click listener registered (only the scroll listener is
removed in `onUnmounted`), while the dashboard navbar removes everything it
registered. -/
theorem navbar_click_listener_leak :
    remainingListeners Navbar.mountedRegistrations Navbar.unmountRemovals
      = [ { kind := ListenerKind.documentClick, handlerId := "anonymous" } ]
    ∧ remainingListeners DashboardNavbar.mountedRegistrations
        DashboardNavbar.unmountRemovals = [] := by
  decide

/-- C5 counterexample: the dashboard navbar logout does not perform
sign-out first; it closes the mobile menu before calling sign-out. -/
theorem dashboard_logout_order_counterexample :
    ¬ DashboardNavbar.handleLogoutTrace
      = [LogoutStep.callSignOut, LogoutStep.setMobileMenuOpen false,
         LogoutStep.callNavigateTo "/"] := by decide

/-- C5 (amended): the public navbar logout performs sign-out, then closes
the mobile menu, then navigates to `/`; the dashboard navbar logout closes
the mobile menu first, then signs out, then navigates to `/`. -/
theorem logout_traces :
    Navbar.handleLogoutTrace
      = [LogoutStep.callSignOut, LogoutStep.setMobileMenuOpen false,
         LogoutStep.callNavigateTo "/"]
    ∧ DashboardNavbar.handleLogoutTrace
      = [LogoutStep.setMobileMenuOpen false, LogoutStep.callSignOut,
         LogoutStep.callNavigateTo "/"] := ⟨rfl, rfl⟩

/-- C6: at route `/` only the home item of the public navbar is active, and
at route `/courses/123` only the courses item is. -/
theorem public_nav_active_vectors :
    ((Navbar.navigationMenus "/").filter (fun i => i.isActive)).map (fun i => i.id)
      = ["home"]
    ∧ ((Navbar.navigationMenus "/courses/123").filter (fun i => i.isActive)).map
        (fun i => i.id) = ["courses"] := by decide

/-- C7: in both navbars, a route-path change (to a genuinely different path)
forces the mobile menu closed. -/
theorem route_change_closes_menu (s : Navbar.State) (t : DashboardNavbar.State)
    (p : String) (hs : s.mobileMenuOpen = true) (hsp : ¬ p = s.routePath)
    (ht : t.mobileMenuOpen = true) (htp : ¬ p = t.routePath) :
    (Navbar.step s (Navbar.Event.routeChange p)).mobileMenuOpen = false
    ∧ (DashboardNavbar.step t (DashboardNavbar.Event.routeChange p)).mobileMenuOpen
        = false := by
  constructor
  · simp [Navbar.step, hsp]
  · simp [DashboardNavbar.step, htp]

/-- C7 witness: both menus open, navigating from the root paths to
`/courses`. -/
theorem route_change_closes_menu_witness :
    (Navbar.step navbarMenuOpenState (Navbar.Event.routeChange "/courses")).mobileMenuOpen
      = false
    ∧ (DashboardNavbar.step dashboardMenuOpenState
        (DashboardNavbar.Event.routeChange "/courses")).mobileMenuOpen = false :=
  route_change_closes_menu navbarMenuOpenState dashboardMenuOpenState "/courses"
    rfl (by decide) rfl (by decide)

/-- C8: in both navbars, a document click outside the header closes the
mobile menu, and a click inside the header leaves the flag unchanged. -/
theorem outside_click_closes_menu (s : Navbar.State) (t : DashboardNavbar.State) :
    (Navbar.step s (Navbar.Event.documentClick false)).mobileMenuOpen = false
    ∧ (Navbar.step s (Navbar.Event.documentClick true)).mobileMenuOpen
        = s.mobileMenuOpen
    ∧ (DashboardNavbar.step t (DashboardNavbar.Event.documentClick false)).mobileMenuOpen
        = false
    ∧ (DashboardNavbar.step t (DashboardNavbar.Event.documentClick true)).mobileMenuOpen
        = t.mobileMenuOpen := by
  refine ⟨?_, ?_, ?_, ?_⟩ <;> simp [Navbar.step, DashboardNavbar.step]

/-- C9: after a scroll event the public navbar shadow flag equals the test
`scroll offset > 0`; in particular a positive offset sets it and offset 0
clears it. -/
theorem scroll_shadow_tracks_offset (s : Navbar.State) (y : Nat) :
    (Navbar.step s (Navbar.Event.scroll y)).isScrolled = decide (0 < y)
    ∧ (0 < y → (Navbar.step s (Navbar.Event.scroll y)).isScrolled = true)
    ∧ (Navbar.step s (Navbar.Event.scroll 0)).isScrolled = false := by
  refine ⟨?_, ?_, ?_⟩
  · simp [Navbar.step]
  · intro hy
    simp [Navbar.step, hy]
  · simp [Navbar.step]

/-- C9 witness: the scroll event at offset 5 from the idle state sets the
shadow flag. -/
theorem scroll_shadow_tracks_offset_witness :
    (Navbar.step navbarIdleState (Navbar.Event.scroll 5)).isScrolled = true :=
  (scroll_shadow_tracks_offset navbarIdleState 5).2.1 (by decide)

/-- C10: for every route path, any two simultaneously active items of either
navigation list are the same item. -/
theorem nav_active_exclusive (path : String) :
    (∀ i ∈ Navbar.navigationMenus path, ∀ j ∈ Navbar.navigationMenus path,
      i.isActive = true → j.isActive = true → i = j)
    ∧ (∀ i ∈ DashboardNavbar.dashboardNavigation path,
        ∀ j ∈ DashboardNavbar.dashboardNavigation path,
      i.isActive = true → j.isActive = true → i = j) := by
  constructor
  · intro i hi j hj hia hja
    simp only [Navbar.navigationMenus, List.mem_cons, List.not_mem_nil, or_false] at hi hj
    rcases hi with rfl | rfl | rfl | rfl | rfl | rfl <;>
      rcases hj with rfl | rfl | rfl | rfl | rfl | rfl <;>
        first
          | rfl
          | exact (root_match_excludes_longer (by decide) hia hja).elim
          | exact (root_match_excludes_longer (by decide) hja hia).elim
          | exact (both_prefixes_impossible (by decide) (by decide) hia hja).elim
  · intro i hi j hj hia hja
    simp only [DashboardNavbar.dashboardNavigation, List.mem_cons, List.not_mem_nil,
      or_false] at hi hj
    rcases hi with rfl | rfl | rfl | rfl <;>
      rcases hj with rfl | rfl | rfl | rfl <;>
        first
          | rfl
          | exact (root_match_excludes_longer (by decide) hia hja).elim
          | exact (root_match_excludes_longer (by decide) hja hia).elim
          | exact (both_prefixes_impossible (by decide) (by decide) hia hja).elim

/-- C10 witness: the courses item paired with itself at route
`/courses/123`. -/
theorem nav_active_exclusive_witness :
    coursesItem "/courses/123" = coursesItem "/courses/123" :=
  (nav_active_exclusive "/courses/123").1
    (coursesItem "/courses/123") (by decide)
    (coursesItem "/courses/123") (by decide)
    (by decide) (by decide)
